import Mathlib

/-!
Shallow embedding of `src/lib/types/parameter-value.js` (the `ParameterValue`
constructor of the sway library) together with the `escapePaths` helper defined
in the same file.

The JavaScript object exposes three lazily computed getters (`value`, `valid`,
`error`) that share mutable closure state (`processed`, `processedValue`,
`error`, `isValid`).  We model that state explicitly as `PVState` and each
getter as a state-passing function.  External collaborators from
`../helpers` (`convertValue`, `isFile`, `constructSchemaPathFromPtr`,
`validateAgainstSchema` together with `getJSONSchemaValidator`) are not part of
this file's source; they are abstracted as a record of functions (`Helpers`)
that each run is universally quantified over.  JavaScript values are modelled
by the inductive `JSValue`; strict equality `===` is modelled by structural
equality (exact for the primitive values the claims exercise).  The
`validateOptions` argument is threaded through to the validator unchanged by
the source and is inspected by nothing the claims touch, so it is folded into
the abstract `validateAgainstSchema` as well.  The state also
carries two instrumentation counters, `convertCount` and `validateCount`,
incremented exactly where the source invokes `helpers.convertValue` and
`helpers.validateAgainstSchema`; they let memoization and skip-validation
claims be stated as counting properties.
-/

/-- A JavaScript runtime value, as far as `parameter-value.js` inspects it:
`undefined` and `null` are distinct; `date` stands for a `Date` object
(`_.isDate`); `buffer` stands for a `Buffer`, the one value whose
`readUInt8` member is a function. -/
inductive JSValue where
  | undefined : JSValue
  | null : JSValue
  | boolean : Bool → JSValue
  | number : Int → JSValue
  | string : String → JSValue
  | array : List JSValue → JSValue
  | date : JSValue
  | buffer : JSValue

mutual

/-- Structural equality on `JSValue`, our model of strict equality `===`
(exact for primitives, which are all the claims compare). -/
def JSValue.strictEq : JSValue → JSValue → Bool
  | .undefined, .undefined => true
  | .null, .null => true
  | .boolean a, .boolean b => a == b
  | .number a, .number b => a == b
  | .string a, .string b => a == b
  | .array a, .array b => JSValue.strictEqList a b
  | .date, .date => true
  | .buffer, .buffer => true
  | _, _ => false

/-- Elementwise `JSValue.strictEq` on lists. -/
def JSValue.strictEqList : List JSValue → List JSValue → Bool
  | [], [] => true
  | a :: as, b :: bs => JSValue.strictEq a b && JSValue.strictEqList as bs
  | _, _ => false

end

mutual

theorem JSValue.strictEq_iff : ∀ a b : JSValue, JSValue.strictEq a b = true ↔ a = b
  | .undefined, b => by cases b <;> simp [JSValue.strictEq]
  | .null, b => by cases b <;> simp [JSValue.strictEq]
  | .boolean a, b => by cases b <;> simp [JSValue.strictEq]
  | .number a, b => by cases b <;> simp [JSValue.strictEq]
  | .string a, b => by cases b <;> simp [JSValue.strictEq]
  | .array a, b => by
      cases b <;> simp [JSValue.strictEq]
      exact JSValue.strictEqList_iff a _
  | .date, b => by cases b <;> simp [JSValue.strictEq]
  | .buffer, b => by cases b <;> simp [JSValue.strictEq]

theorem JSValue.strictEqList_iff :
    ∀ as bs : List JSValue, JSValue.strictEqList as bs = true ↔ as = bs
  | [], bs => by cases bs <;> simp [JSValue.strictEqList]
  | a :: as, bs => by
      cases bs with
      | nil => simp [JSValue.strictEqList]
      | cons b bs =>
          simp [JSValue.strictEqList, JSValue.strictEq_iff a b,
            JSValue.strictEqList_iff as bs]

end

instance : DecidableEq JSValue := fun a b =>
  decidable_of_iff (JSValue.strictEq a b = true) (JSValue.strictEq_iff a b)

/-- A JSON-schema node, with exactly the fields `parameter-value.js` reads:
`type`, `format`, `default`, `items` (a single sub-schema or a tuple-style
list), `oneOf` and `allowEmptyValue`.  A JavaScript field that may be absent
is an `Option`; `default` is a `JSValue` with `JSValue.undefined` standing for
an absent default, mirroring the `_.isUndefined(schema.default)` checks. -/
inductive Schema where
  | mk : Option String → Option String → JSValue →
      Option (Schema ⊕ List Schema) → Option (List Schema) → Option Bool → Schema

/-- The schema's `type` field. -/
def Schema.type : Schema → Option String
  | .mk t _ _ _ _ _ => t

/-- The schema's `format` field. -/
def Schema.format : Schema → Option String
  | .mk _ f _ _ _ _ => f

/-- The schema's `default` field (`JSValue.undefined` when absent). -/
def Schema.default : Schema → JSValue
  | .mk _ _ d _ _ _ => d

/-- The schema's `items` field: absent, a single sub-schema, or a list. -/
def Schema.items : Schema → Option (Schema ⊕ List Schema)
  | .mk _ _ _ i _ _ => i

/-- The schema's `oneOf` field. -/
def Schema.oneOf : Schema → Option (List Schema)
  | .mk _ _ _ _ o _ => o

/-- The schema's `allowEmptyValue` field. -/
def Schema.allowEmptyValue : Schema → Option Bool
  | .mk _ _ _ _ _ a => a

/-- A JavaScript `Error` as `parameter-value.js` builds and decorates one:
`code`, `errors`, `failedValidation` and `schemaPath` are expando properties,
absent (`none`) until assigned.  Sub-errors from the external validator are
kept as opaque strings. -/
structure JSError where
  message : String
  code : Option String
  errors : Option (List String)
  failedValidation : Option Bool
  schemaPath : Option String
  deriving DecidableEq

/-- The root API document (`parameterObject.pathObject.api.definition`) as far
as this file touches it: its `paths` object, an insertion-ordered string-keyed
map, modelled as an association list. -/
structure ApiDef where
  paths : List (String × JSValue)
  deriving DecidableEq

/-- Result object of the external schema validator. -/
structure VResult where
  errors : List String
  warnings : List String
  deriving DecidableEq

/-- The `Parameter` descriptor, with exactly the fields the source reads:
`schema`, `required` (tri-state), `type`, `collectionFormat`, `ptr` and
`definition.schema`.  The root document `pathObject.api.definition` lives in
the mutable state (`PVState.api`) because `escapePaths` writes to it. -/
structure ParameterObject where
  schema : Schema
  required : Option Bool
  type : Option String
  collectionFormat : Option String
  ptr : String
  definitionSchema : Schema

/-- The external collaborators from `../helpers`, abstracted as functions.
`getJSONSchemaValidator` is folded into `validateAgainstSchema` (the source
always passes the former's result as the latter's first argument). -/
structure Helpers where
  convertValue : Schema → Option String → JSValue → Except JSError JSValue
  isFile : Schema → Bool
  constructSchemaPathFromPtr : String → Schema → List String
  validateAgainstSchema : ApiDef → JSValue → List String → VResult

/-- The closure state of one `ParameterValue` instance: the memoization flags
and caches (`processed`, `processedValue`, `error`, `isValid`), the root API
document (mutated in place by `escapePaths`), and the two instrumentation
counters. -/
structure PVState where
  processed : Bool
  processedValue : JSValue
  error : Option JSError
  isValid : Option Bool
  api : ApiDef
  convertCount : Nat
  validateCount : Nat
  deriving DecidableEq

/-- The state a fresh `ParameterValue` starts from: nothing processed, no
error, no verdict, counters at zero. -/
def initState (api : ApiDef) : PVState :=
  { processed := false
    processedValue := JSValue.undefined
    error := none
    isValid := none
    api := api
    convertCount := 0
    validateCount := 0 }

/-- The single-quote character. -/
def quoteChar : Char := Char.ofNat 39

/-- The backslash character. -/
def backslashChar : Char := Char.ofNat 92

/-- Modelled from the spec: the path-key escaper `helpers.escapeSingleQuotes`
lives in `src/lib/helpers.js`, which is not among the staged sources.  The
spec describes it as escaping single quotes in a key, idempotently
(re-escaping an already-escaped key must not double-escape): we insert a
backslash before every single quote that is not already preceded by a
backslash.  The boolean argument records whether the previous character kept
was a backslash. -/
def escQuoteAux : Bool → List Char → List Char
  | _, [] => []
  | afterBackslash, c :: cs =>
      if c = quoteChar ∧ afterBackslash = false then
        backslashChar :: c :: escQuoteAux false cs
      else
        c :: escQuoteAux (c = backslashChar) cs

/-- Modelled from the spec: see `escQuoteAux`. -/
def escapeSingleQuotes (s : String) : String :=
  String.mk (escQuoteAux false s.data)

/-- JavaScript property assignment `obj[k] = v` on an insertion-ordered
string-keyed object: overwrite in place when the key exists, append
otherwise. -/
def setKey : List (String × JSValue) → String → JSValue → List (String × JSValue)
  | [], k, v => [(k, v)]
  | (k0, v0) :: rest, k, v =>
      if k0 = k then (k0, v) :: rest else (k0, v0) :: setKey rest k v

/-- JavaScript property read `obj[k]`. -/
def lookupKey : List (String × JSValue) → String → Option JSValue
  | [], _ => none
  | (k0, v0) :: rest, k => if k0 = k then some v0 else lookupKey rest k

/-- `escapePaths` from `parameter-value.js`: for every key of
`schema['paths']` (lodash `_.each` iterates the snapshot of keys taken when
the loop starts, reading `obj[key]` at callback time), write the value back
under the escaped key, in place.  A read of a key that has disappeared would
yield `undefined` in JavaScript, hence the `getD JSValue.undefined`. -/
def escapePaths (doc : ApiDef) : ApiDef :=
  { paths :=
      (doc.paths.map Prod.fst).foldl
        (fun ps k => setKey ps (escapeSingleQuotes k) ((lookupKey ps k).getD JSValue.undefined))
        doc.paths }

/-- The `for (const oneOfSchema of schema.oneOf)` loop in the `value` getter:
skip alternatives whose `type` is the literal null-type, otherwise invoke
`helpers.convertValue` on the alternative (counting the invocation); a thrown
conversion error aborts the loop with the error captured and `processedValue`
untouched; a returned value is assigned to `processedValue`, and the loop
breaks when it is defined and differs from `raw`. -/
def oneOfLoop (h : Helpers) (cf : Option String) (raw : JSValue) :
    List Schema → PVState → PVState
  | [], s => s
  | a :: rest, s =>
      if a.type = some "null" then oneOfLoop h cf raw rest s
      else
        match h.convertValue a cf raw with
        | .error e =>
            { s with convertCount := s.convertCount + 1, error := some e }
        | .ok v =>
            let s := { s with convertCount := s.convertCount + 1, processedValue := v }
            if v ≠ JSValue.undefined ∧ v ≠ raw then s
            else oneOfLoop h cf raw rest s

/-- The `try { ... } catch (err) { error = err; }` conversion block of the
`value` getter: the `oneOf` loop when the schema declares alternatives,
otherwise a single `helpers.convertValue` call on the schema itself. -/
def convertPhase (h : Helpers) (p : ParameterObject) (raw : JSValue) (s : PVState) : PVState :=
  match p.schema.oneOf with
  | some alts => oneOfLoop h p.collectionFormat raw alts s
  | none =>
      match h.convertValue p.schema p.collectionFormat raw with
      | .ok v => { s with convertCount := s.convertCount + 1, processedValue := v }
      | .error e => { s with convertCount := s.convertCount + 1, error := some e }

/-- The tuple-style branch of the default-value fallback (lines 196-206 of the
source): the candidate array of the elementwise `default`s of `schema.items`,
discarded when every element is undefined. -/
def tupleDefault (itemList : List Schema) (s : PVState) : PVState :=
  let cand := itemList.map Schema.default
  if cand.all (fun d => d = JSValue.undefined) then s
  else { s with processedValue := JSValue.array cand }

/-- The `items`-driven part of the default fallback: only for an array-typed
schema; tuple-style `items` go through `tupleDefault`, a single `items`
sub-schema with a defined `default` yields a one-element array. -/
def itemsDefault (schema : Schema) (s : PVState) : PVState :=
  if schema.type = some "array" then
    match schema.items with
    | some (Sum.inr itemList) => tupleDefault itemList s
    | some (Sum.inl item) =>
        if item.default ≠ JSValue.undefined then
          { s with processedValue := JSValue.array [item.default] }
        else s
    | none => s
  else s

/-- The final step of the default fallback: the schema's own top-level
`default`, when the processed value is still undefined. -/
def topDefault (schema : Schema) (s : PVState) : PVState :=
  if s.processedValue = JSValue.undefined ∧ schema.default ≠ JSValue.undefined then
    { s with processedValue := schema.default }
  else s

/-- The whole fallback runs only when the processed value is still
`undefined` and no error was captured. -/
def applyDefault (schema : Schema) (s : PVState) : PVState :=
  if s.processedValue = JSValue.undefined ∧ s.error = none then
    topDefault schema (itemsDefault schema s)
  else s

/-- The body of the `value` getter when `processed` is still false: a
file-typed schema passes `raw` through untouched; otherwise conversion then
default fallback; in every case `processed` is set. -/
def computeValue (h : Helpers) (p : ParameterObject) (raw : JSValue) (s : PVState) : PVState :=
  let s1 :=
    if p.schema.type = some "file" then { s with processedValue := raw }
    else applyDefault p.schema (convertPhase h p raw s)
  { s1 with processed := true }

/-- The `value` getter: return the cached `processedValue` when already
processed, otherwise compute it once. -/
def valueGet (h : Helpers) (p : ParameterObject) (raw : JSValue) (s : PVState) :
    JSValue × PVState :=
  if s.processed then (s.processedValue, s)
  else
    let s1 := computeValue h p raw s
    (s1.processedValue, s1)

/-- The `TypeError` JavaScript raises for a property read on `null`. -/
def nullReadError : JSError :=
  { message := "Cannot read properties of null reading readUInt8"
    code := none, errors := none, failedValidation := none, schemaPath := none }

/-- The `TypeError` JavaScript raises for a property read on `undefined`. -/
def undefinedReadError : JSError :=
  { message := "Cannot read properties of undefined reading readUInt8"
    code := none, errors := none, failedValidation := none, schemaPath := none }

/-- The member access `value.readUInt8` followed by `_.isFunction`: reading a
property of `null` or `undefined` throws a `TypeError` (which carries no
`code`); on every other value the probe answers whether `readUInt8` is a
function, which holds exactly for a `Buffer`. -/
def readUInt8Probe : JSValue → Except JSError Bool
  | .null => .error nullReadError
  | .undefined => .error undefinedReadError
  | .buffer => .ok true
  | _ => .ok false

/-- The skip-validation decision chain of the `valid` getter (lines 112-127 of
the source), after the requiredness check: `.ok b` means `skipValidation`
ended as `b`, `.error e` means the chain itself threw (the `readUInt8` probe
on `null`/`undefined`).  The chain is an `if`/`else if` cascade, so at most
one branch fires; inside the string-typed branch, when the value is neither a
matching date nor a buffer, `skipValidation` stays false without falling
through to the `helpers.isFile` test. -/
def skipCheck (h : Helpers) (p : ParameterObject) (value : JSValue) : Except JSError Bool :=
  if (p.required = none ∨ p.required = some false) ∧ value = JSValue.undefined then .ok true
  else if p.schema.allowEmptyValue = some true ∧ value = JSValue.string "" then .ok true
  else if p.type = some "file" then .ok true
  else if p.schema.type = some "string" then
    if (p.schema.format = some "date" ∨ p.schema.format = some "date-time") ∧
        value = JSValue.date then .ok true
    else readUInt8Probe value
  else if h.isFile p.schema then .ok true
  else .ok false

/-- The `MISSING_REQUIRED_PARAMETER` error exactly as the `valid` getter
builds it before throwing (the catch block stamps the remaining fields). -/
def missingRequiredError : JSError :=
  { message := "Value is required but was not provided"
    code := some "MISSING_REQUIRED_PARAMETER"
    errors := none, failedValidation := none, schemaPath := none }

/-- The `SCHEMA_VALIDATION_FAILED` error exactly as the `valid` getter builds
it from the validator's error list before throwing. -/
def schemaValidationError (errs : List String) : JSError :=
  { message := "Value failed JSON Schema validation"
    code := some "SCHEMA_VALIDATION_FAILED"
    errors := some errs, failedValidation := none, schemaPath := none }

/-- The `try` block of the `valid` getter (after the captured-error check):
requiredness first, then the skip chain, then — only when validation is not
skipped — `escapePaths` on the root document (in place), the schema-path
construction, and the external validator (counted); a non-empty error list
throws.  The returned state carries the document mutation and the counter;
the `Option JSError` is the exception the block threw, if any. -/
def validAttempt (h : Helpers) (p : ParameterObject) (value : JSValue) (s : PVState) :
    PVState × Option JSError :=
  if p.required = some true ∧ value = JSValue.undefined then
    (s, some missingRequiredError)
  else
    match skipCheck h p value with
    | .error e => (s, some e)
    | .ok true => (s, none)
    | .ok false =>
        let api := escapePaths s.api
        let spath := h.constructSchemaPathFromPtr p.ptr p.definitionSchema
        let res := h.validateAgainstSchema api value spath
        let s1 := { s with api := api, validateCount := s.validateCount + 1 }
        if res.errors ≠ [] then (s1, some (schemaValidationError res.errors))
        else (s1, none)

/-- The `valid` getter: cached verdict when `isValid` is already set;
otherwise force `value`, short-circuit to invalid when a conversion error was
captured (the captured error is exposed as-is), and otherwise run the `try`
block, the catch stamping `failedValidation` and `schemaPath` onto any thrown
error before caching it. -/
def validGet (h : Helpers) (p : ParameterObject) (raw : JSValue) (s : PVState) :
    Bool × PVState :=
  match s.isValid with
  | some b => (b, s)
  | none =>
      let vs := valueGet h p raw s
      match vs.2.error with
      | some _ => (false, { vs.2 with isValid := some false })
      | none =>
          let as2 := validAttempt h p vs.1 vs.2
          match as2.2 with
          | none => (true, { as2.1 with isValid := some true })
          | some e =>
              (false,
               { as2.1 with
                 error := some { e with failedValidation := some true,
                                        schemaPath := some p.ptr }
                 isValid := some false })

/-- The `error` getter: force `valid`; `undefined` when valid, otherwise the
stored error. -/
def errorGet (h : Helpers) (p : ParameterObject) (raw : JSValue) (s : PVState) :
    Option JSError × PVState :=
  let bs := validGet h p raw s
  if bs.1 = true then (none, bs.2) else (bs.2.error, bs.2)

/-- The oneOf loop writes only `processedValue`, `error` and `convertCount`:
the other state fields come through untouched. -/
theorem oneOfLoop_pres (h : Helpers) (cf : Option String) (raw : JSValue) :
    ∀ (alts : List Schema) (s : PVState),
      (oneOfLoop h cf raw alts s).processed = s.processed ∧
      (oneOfLoop h cf raw alts s).isValid = s.isValid ∧
      (oneOfLoop h cf raw alts s).api = s.api ∧
      (oneOfLoop h cf raw alts s).validateCount = s.validateCount
  | [], s => by simp [oneOfLoop]
  | a :: rest, s => by
      simp only [oneOfLoop]
      split
      · exact oneOfLoop_pres h cf raw rest s
      · split
        · simp
        · split
          · simp
          · simpa using oneOfLoop_pres h cf raw rest _

/-- The conversion phase writes only `processedValue`, `error` and
`convertCount`. -/
theorem convertPhase_pres (h : Helpers) (p : ParameterObject) (raw : JSValue) (s : PVState) :
    (convertPhase h p raw s).processed = s.processed ∧
    (convertPhase h p raw s).isValid = s.isValid ∧
    (convertPhase h p raw s).api = s.api ∧
    (convertPhase h p raw s).validateCount = s.validateCount := by
  unfold convertPhase
  split
  · exact oneOfLoop_pres h p.collectionFormat raw _ s
  · split <;> simp

/-- The default fallback writes only `processedValue`. -/
theorem applyDefault_pres (schema : Schema) (s : PVState) :
    (applyDefault schema s).processed = s.processed ∧
    (applyDefault schema s).isValid = s.isValid ∧
    (applyDefault schema s).api = s.api ∧
    (applyDefault schema s).validateCount = s.validateCount ∧
    (applyDefault schema s).error = s.error ∧
    (applyDefault schema s).convertCount = s.convertCount := by
  have htup : ∀ (l : List Schema) (t : PVState),
      (tupleDefault l t).processed = t.processed ∧
      (tupleDefault l t).isValid = t.isValid ∧
      (tupleDefault l t).api = t.api ∧
      (tupleDefault l t).validateCount = t.validateCount ∧
      (tupleDefault l t).error = t.error ∧
      (tupleDefault l t).convertCount = t.convertCount := by
    intro l t
    simp only [tupleDefault]
    split <;> simp
  have hitems : ∀ t : PVState,
      (itemsDefault schema t).processed = t.processed ∧
      (itemsDefault schema t).isValid = t.isValid ∧
      (itemsDefault schema t).api = t.api ∧
      (itemsDefault schema t).validateCount = t.validateCount ∧
      (itemsDefault schema t).error = t.error ∧
      (itemsDefault schema t).convertCount = t.convertCount := by
    intro t
    unfold itemsDefault
    split
    · split
      · exact htup _ _
      · split <;> simp
      · simp
    · simp
  have htop : ∀ t : PVState,
      (topDefault schema t).processed = t.processed ∧
      (topDefault schema t).isValid = t.isValid ∧
      (topDefault schema t).api = t.api ∧
      (topDefault schema t).validateCount = t.validateCount ∧
      (topDefault schema t).error = t.error ∧
      (topDefault schema t).convertCount = t.convertCount := by
    intro t
    unfold topDefault
    split <;> simp
  unfold applyDefault
  split
  · have h1 := hitems s
    have h2 := htop (itemsDefault schema s)
    exact ⟨h2.1.trans h1.1, (h2.2.1).trans h1.2.1, (h2.2.2.1).trans h1.2.2.1,
      (h2.2.2.2.1).trans h1.2.2.2.1, (h2.2.2.2.2.1).trans h1.2.2.2.2.1,
      (h2.2.2.2.2.2).trans h1.2.2.2.2.2⟩
  · simp

/-- A `value` read leaves `isValid`, the document and the validation counter
alone. -/
theorem valueGet_pres (h : Helpers) (p : ParameterObject) (raw : JSValue) (s : PVState) :
    (valueGet h p raw s).2.isValid = s.isValid ∧
    (valueGet h p raw s).2.api = s.api ∧
    (valueGet h p raw s).2.validateCount = s.validateCount := by
  unfold valueGet computeValue
  split
  · simp
  · split
    · simp
    · have h1 := applyDefault_pres p.schema (convertPhase h p raw s)
      have h2 := convertPhase_pres h p raw s
      simp only
      exact ⟨by rw [h1.2.1, h2.2.1], by rw [h1.2.2.1, h2.2.2.1], by rw [h1.2.2.2.1, h2.2.2.2]⟩

/-- After any `value` read the instance is processed. -/
theorem valueGet_processed (h : Helpers) (p : ParameterObject) (raw : JSValue) (s : PVState)
    (hs : s.processed = true) : valueGet h p raw s = (s.processedValue, s) := by
  unfold valueGet
  simp [hs]

/-- After any `value` read the `processed` flag is set. -/
theorem valueGet_processed_true (h : Helpers) (p : ParameterObject) (raw : JSValue)
    (s : PVState) : (valueGet h p raw s).2.processed = true := by
  unfold valueGet computeValue
  split
  · simpa
  · simp

/-- The returned value of a `value` read is the cached `processedValue` of the
state it leaves behind. -/
theorem valueGet_fst (h : Helpers) (p : ParameterObject) (raw : JSValue) (s : PVState) :
    (valueGet h p raw s).1 = (valueGet h p raw s).2.processedValue := by
  unfold valueGet
  split <;> simp

/-- The `try` block of the `valid` getter writes only the document and the
validation counter. -/
theorem validAttempt_pres (h : Helpers) (p : ParameterObject) (value : JSValue) (s : PVState) :
    (validAttempt h p value s).1.processed = s.processed ∧
    (validAttempt h p value s).1.processedValue = s.processedValue ∧
    (validAttempt h p value s).1.error = s.error ∧
    (validAttempt h p value s).1.isValid = s.isValid ∧
    (validAttempt h p value s).1.convertCount = s.convertCount := by
  unfold validAttempt
  split
  · simp
  · split <;> try simp
    split <;> simp

/-- A cached verdict is returned as-is, with the state untouched. -/
theorem validGet_cached (h : Helpers) (p : ParameterObject) (raw : JSValue) (s : PVState)
    (b : Bool) (hs : s.isValid = some b) : validGet h p raw s = (b, s) := by
  unfold validGet
  simp [hs]

/-- Characterization of a first `valid` read (no cached verdict): the verdict
is cached, the verdict is `true` exactly when no error is stored afterwards,
the instance ends processed, and the conversion cache and counter are those
the forced `value` read left behind. -/
theorem validGet_char (h : Helpers) (p : ParameterObject) (raw : JSValue) (s : PVState)
    (hs : s.isValid = none) :
    (validGet h p raw s).2.isValid = some (validGet h p raw s).1 ∧
    ((validGet h p raw s).2.error = none ↔ (validGet h p raw s).1 = true) ∧
    (validGet h p raw s).2.processed = true ∧
    (validGet h p raw s).2.processedValue = (valueGet h p raw s).2.processedValue ∧
    (validGet h p raw s).2.convertCount = (valueGet h p raw s).2.convertCount ∧
    ((validGet h p raw s).1 = false → ((validGet h p raw s).2.error).isSome) := by
  unfold validGet
  rw [hs]
  cases herr : (valueGet h p raw s).2.error with
  | some e => simp [herr, valueGet_processed_true]
  | none =>
      have hp := validAttempt_pres h p (valueGet h p raw s).1 (valueGet h p raw s).2
      cases hat : (validAttempt h p (valueGet h p raw s).1 (valueGet h p raw s).2).2 with
      | none =>
          simp [herr, hat, hp.1, hp.2.1, hp.2.2.1, hp.2.2.2.2, valueGet_processed_true]
      | some e =>
          simp [herr, hat, hp.1, hp.2.1, hp.2.2.2.2, valueGet_processed_true]

/-- A first `valid` read that finds a captured conversion error: immediately
invalid, the stored error untouched (in particular not stamped). -/
theorem validGet_of_error (h : Helpers) (p : ParameterObject) (raw : JSValue) (s : PVState)
    (hs : s.isValid = none) (e : JSError)
    (herr : (valueGet h p raw s).2.error = some e) :
    validGet h p raw s = (false, { (valueGet h p raw s).2 with isValid := some false }) := by
  unfold validGet
  rw [hs]
  simp [herr]

/-- A first `valid` read whose `try` block returns without throwing: valid. -/
theorem validGet_of_ok (h : Helpers) (p : ParameterObject) (raw : JSValue) (s : PVState)
    (hs : s.isValid = none)
    (herr : (valueGet h p raw s).2.error = none)
    (hat : (validAttempt h p (valueGet h p raw s).1 (valueGet h p raw s).2).2 = none) :
    validGet h p raw s =
      (true, { (validAttempt h p (valueGet h p raw s).1 (valueGet h p raw s).2).1 with
               isValid := some true }) := by
  unfold validGet
  rw [hs]
  simp [herr, hat]

/-- A first `valid` read whose `try` block throws `e`: invalid, with `e`
stamped `failedValidation` and `schemaPath` and stored as the error. -/
theorem validGet_of_throw (h : Helpers) (p : ParameterObject) (raw : JSValue) (s : PVState)
    (hs : s.isValid = none) (e : JSError)
    (herr : (valueGet h p raw s).2.error = none)
    (hat : (validAttempt h p (valueGet h p raw s).1 (valueGet h p raw s).2).2 = some e) :
    validGet h p raw s =
      (false, { (validAttempt h p (valueGet h p raw s).1 (valueGet h p raw s).2).1 with
                error := some { e with failedValidation := some true,
                                       schemaPath := some p.ptr }
                isValid := some false }) := by
  unfold validGet
  rw [hs]
  simp [herr, hat]

/-- The default fallback does nothing when the conversion produced a defined
value. -/
theorem applyDefault_defined (schema : Schema) (s : PVState)
    (hd : s.processedValue ≠ JSValue.undefined) : applyDefault schema s = s := by
  unfold applyDefault
  simp [hd]

/-- The default fallback does nothing when a conversion error was captured. -/
theorem applyDefault_error_some (schema : Schema) (s : PVState)
    (he : s.error ≠ none) : applyDefault schema s = s := by
  unfold applyDefault
  simp [he]

/-- A first `value` read on a non-file, non-`oneOf` schema whose conversion
throws `e`: the value is `undefined`, `e` is captured, the coercion ran once,
and no default was applied. -/
theorem valueGet_convert_error (h : Helpers) (p : ParameterObject) (raw : JSValue)
    (api : ApiDef) (e : JSError)
    (hfile : p.schema.type ≠ some "file") (honeOf : p.schema.oneOf = none)
    (hcv : h.convertValue p.schema p.collectionFormat raw = .error e) :
    valueGet h p raw (initState api) =
      (JSValue.undefined,
       { processed := true, processedValue := JSValue.undefined, error := some e,
         isValid := none, api := api, convertCount := 1, validateCount := 0 }) := by
  unfold valueGet computeValue convertPhase
  rw [honeOf, hcv]
  simp only [initState]
  rw [applyDefault_error_some]
  · simp [hfile]
  · simp

/-- A first `value` read on a non-file, non-`oneOf` schema whose conversion
returns `v`: the coercion ran once and the result went through the default
fallback. -/
theorem valueGet_convert_ok (h : Helpers) (p : ParameterObject) (raw : JSValue)
    (api : ApiDef) (v : JSValue)
    (hfile : p.schema.type ≠ some "file") (honeOf : p.schema.oneOf = none)
    (hcv : h.convertValue p.schema p.collectionFormat raw = .ok v) :
    valueGet h p raw (initState api) =
      ((applyDefault p.schema
          { processed := false, processedValue := v, error := none,
            isValid := none, api := api, convertCount := 1, validateCount := 0 }).processedValue,
       { applyDefault p.schema
          { processed := false, processedValue := v, error := none,
            isValid := none, api := api, convertCount := 1, validateCount := 0 } with
         processed := true }) := by
  unfold valueGet computeValue convertPhase
  rw [honeOf, hcv]
  simp [hfile, initState]

/-- A plain integer-typed schema, for the concrete instances below. -/
def sampleIntSchema : Schema :=
  Schema.mk (some "integer") none JSValue.undefined none none none

/-- A plain string-typed schema. -/
def sampleStringSchema : Schema :=
  Schema.mk (some "string") none JSValue.undefined none none none

/-- A file-typed schema. -/
def sampleFileSchema : Schema :=
  Schema.mk (some "file") none JSValue.undefined none none none

/-- A concrete descriptor around a schema. -/
def sampleParam (sch : Schema) (req : Option Bool) (ty : Option String) : ParameterObject :=
  { schema := sch, required := req, type := ty, collectionFormat := none,
    ptr := "parameters-0", definitionSchema := sch }

/-- A validator that accepts everything. -/
def okValidator : ApiDef → JSValue → List String → VResult :=
  fun _ _ _ => { errors := [], warnings := [] }

/-- Concrete helpers around a conversion stub. -/
def sampleHelpers (cv : Schema → Option String → JSValue → Except JSError JSValue) : Helpers :=
  { convertValue := cv
    isFile := fun _ => false
    constructSchemaPathFromPtr := fun ptr _ => [ptr]
    validateAgainstSchema := okValidator }

/-- An empty root document. -/
def emptyApi : ApiDef := { paths := [] }

/-- A conversion stub that parses the decimal string "5" to the number 5 for
integer-typed schemas and otherwise reports no conversion (`undefined`). -/
def intConvertStub : Schema → Option String → JSValue → Except JSError JSValue :=
  fun sch _ raw =>
    if sch.type = some "integer" then
      match raw with
      | JSValue.string "5" => Except.ok (JSValue.number 5)
      | _ => Except.ok JSValue.undefined
    else Except.ok JSValue.undefined

/-- The conversion counter grows by exactly one when the schema has no
`oneOf`. -/
theorem convertPhase_count_single (h : Helpers) (p : ParameterObject) (raw : JSValue)
    (s : PVState) (honeOf : p.schema.oneOf = none) :
    (convertPhase h p raw s).convertCount = s.convertCount + 1 := by
  unfold convertPhase
  rw [honeOf]
  dsimp only
  cases hcv : h.convertValue p.schema p.collectionFormat raw <;> simp [hcv]

/-- A first `value` read from a fresh state invokes the conversion at most
once when the schema has no `oneOf` (zero times for a file-typed schema). -/
theorem valueGet_count_single (h : Helpers) (p : ParameterObject) (raw : JSValue)
    (api : ApiDef) (honeOf : p.schema.oneOf = none) :
    (valueGet h p raw (initState api)).2.convertCount ≤ 1 := by
  unfold valueGet computeValue
  simp only [initState]
  split
  · simp
  · split
    · simp
    · have h1 := (applyDefault_pres p.schema (convertPhase h p raw (initState api))).2.2.2.2.2
      have h2 := convertPhase_count_single h p raw (initState api) honeOf
      simp only [initState] at h1 h2
      simp [h1, h2, initState]

/-- An `error` read leaves exactly the state of the `valid` read it forces. -/
theorem errorGet_snd (h : Helpers) (p : ParameterObject) (raw : JSValue) (s : PVState) :
    (errorGet h p raw s).2 = (validGet h p raw s).2 := by
  unfold errorGet
  dsimp only
  split <;> rfl

/-- An `error` read on a state whose verdict is already cached projects the
cached verdict and error without touching the state. -/
theorem errorGet_cached (h : Helpers) (p : ParameterObject) (raw : JSValue) (s : PVState)
    (b : Bool) (hs : s.isValid = some b) :
    errorGet h p raw s = if b = true then (none, s) else (s.error, s) := by
  unfold errorGet
  rw [validGet_cached h p raw s b hs]

/-- Claim C1, amended: each facet is computed at most once per instance.  A
second `value` read returns the identical cached result with the state
untouched, and for a schema without `oneOf` the underlying coercion function
ran at most once (for a schema with `oneOf` it runs once per attempted
alternative, still only during the first read); `valid` and `error` likewise
cache their results, never re-invoke the coercion, and never change the
cached value. -/
theorem C1_facets_memoized (h : Helpers) (p : ParameterObject) (raw : JSValue) (api : ApiDef) :
    valueGet h p raw (valueGet h p raw (initState api)).2 = valueGet h p raw (initState api) ∧
    (p.schema.oneOf = none → (valueGet h p raw (initState api)).2.convertCount ≤ 1) ∧
    validGet h p raw (validGet h p raw (initState api)).2 = validGet h p raw (initState api) ∧
    (validGet h p raw (initState api)).2.convertCount =
      (valueGet h p raw (initState api)).2.convertCount ∧
    (validGet h p raw (initState api)).2.processedValue =
      (valueGet h p raw (initState api)).2.processedValue ∧
    errorGet h p raw (errorGet h p raw (initState api)).2 = errorGet h p raw (initState api) ∧
    (errorGet h p raw (initState api)).2 = (validGet h p raw (initState api)).2 := by
  have hchar := validGet_char h p raw (initState api) rfl
  have hcache := validGet_cached h p raw (validGet h p raw (initState api)).2
    (validGet h p raw (initState api)).1 hchar.1
  refine ⟨?_, ?_, ?_, hchar.2.2.2.2.1, hchar.2.2.2.1, ?_, errorGet_snd h p raw (initState api)⟩
  · rw [valueGet_processed h p raw (valueGet h p raw (initState api)).2
      (valueGet_processed_true h p raw (initState api))]
    rw [← valueGet_fst h p raw (initState api)]
  · intro honeOf
    exact valueGet_count_single h p raw api honeOf
  · rw [hcache]
  · rw [errorGet_snd h p raw (initState api),
      errorGet_cached h p raw (validGet h p raw (initState api)).2
        (validGet h p raw (initState api)).1 hchar.1]
    unfold errorGet
    rfl

/-- What an `error` read returns: `undefined` when the forced `valid` read
answers true, the stored error otherwise. -/
theorem errorGet_fst (h : Helpers) (p : ParameterObject) (raw : JSValue) (s : PVState) :
    (errorGet h p raw s).1 =
      if (validGet h p raw s).1 = true then none else (validGet h p raw s).2.error := by
  unfold errorGet
  dsimp only
  split <;> simp_all

/-- A `oneOf` schema with two alternatives, the integer one first. -/
def cexOneOfSchema : Schema :=
  Schema.mk none none JSValue.undefined none (some [sampleIntSchema, sampleStringSchema]) none

/-- A conversion stub that reports no conversion (`undefined`) for the
integer alternative and converts to the number 5 for the string one. -/
def cexC1Helpers : Helpers := sampleHelpers (fun sch _ _ =>
  if sch.type = some "string" then Except.ok (JSValue.number 5)
  else Except.ok JSValue.undefined)

/-- Counterexample to claim C1 as stated: for a `oneOf` schema whose first
alternative's coercion attempt reports no conversion, a single first read of
`value` already invokes the underlying coercion function twice, refuting
"invoked at most once across any number of reads". -/
theorem C1_counterexample :
    (valueGet cexC1Helpers (sampleParam cexOneOfSchema none none) (JSValue.string "q")
        (initState emptyApi)).2.convertCount = 2 ∧
    ¬ ((valueGet cexC1Helpers (sampleParam cexOneOfSchema none none) (JSValue.string "q")
        (initState emptyApi)).2.convertCount ≤ 1) := by
  exact ⟨rfl, by decide⟩

/-- Claim C2: reading `error` forces `valid` (which forces `value`: the state
ends processed with a cached verdict), and after first evaluation the two
facets exclude each other: `error` is `undefined` exactly when `valid` is
true, and when `valid` is false the exposed `error` is the stored, defined
error object the validation produced. -/
theorem C2_error_valid_exclusive (h : Helpers) (p : ParameterObject) (raw : JSValue)
    (api : ApiDef) :
    (errorGet h p raw (initState api)).2.processed = true ∧
    ((errorGet h p raw (initState api)).2.isValid).isSome ∧
    ((errorGet h p raw (initState api)).1 = none ↔
      (errorGet h p raw (initState api)).2.isValid = some true) ∧
    ((errorGet h p raw (initState api)).2.isValid = some false →
      (errorGet h p raw (initState api)).1 = (errorGet h p raw (initState api)).2.error ∧
      ((errorGet h p raw (initState api)).1).isSome) := by
  have hchar := validGet_char h p raw (initState api) rfl
  rw [errorGet_snd h p raw (initState api), errorGet_fst h p raw (initState api), hchar.1]
  cases hb : (validGet h p raw (initState api)).1 with
  | true =>
      have herr := hchar.2.1.mpr hb
      simp [hchar.2.2.1, herr]
  | false =>
      have herr := hchar.2.2.2.2.2 hb
      have hne : (validGet h p raw (initState api)).2.error ≠ none := by
        intro hno
        rw [hno] at herr
        cases herr
      simp [hchar.2.2.1, hne, herr]

/-- Claim C3: when the schema's own coercion function throws (`oneOf` absent,
schema not file-typed), reading `value` returns `undefined` without
propagating the exception (`valueGet` returns normally), the default-value
fallback is not applied even when the schema carries defaults, and a
subsequent `valid` read is false with schema validation skipped entirely
(validator never invoked), the captured exception becoming the exposed
error, unmodified. -/
theorem C3_conversion_error (h : Helpers) (p : ParameterObject) (raw : JSValue)
    (api : ApiDef) (e : JSError)
    (hfile : p.schema.type ≠ some "file") (honeOf : p.schema.oneOf = none)
    (hcv : h.convertValue p.schema p.collectionFormat raw = .error e) :
    (valueGet h p raw (initState api)).1 = JSValue.undefined ∧
    (valueGet h p raw (initState api)).2.error = some e ∧
    (validGet h p raw (initState api)).1 = false ∧
    (validGet h p raw (initState api)).2.validateCount = 0 ∧
    (errorGet h p raw (initState api)).1 = some e := by
  have hv := valueGet_convert_error h p raw api e hfile honeOf hcv
  have herr : (valueGet h p raw (initState api)).2.error = some e := by rw [hv]
  have hvg := validGet_of_error h p raw (initState api) rfl e herr
  refine ⟨by rw [hv], herr, by rw [hvg], ?_, ?_⟩
  · rw [hvg]
    simp [hv]
  · rw [errorGet_fst h p raw (initState api), hvg]
    simp [herr]

/-- A conversion error with none of the decoration fields set. -/
def plainConvertError : JSError :=
  { message := "cannot convert value", code := none, errors := none,
    failedValidation := none, schemaPath := none }

/-- Helpers whose conversion always throws `plainConvertError`. -/
def failingHelpers : Helpers := sampleHelpers (fun _ _ _ => Except.error plainConvertError)

/-- Witness for C3 at a concrete instance: an integer schema whose coercion
throws. -/
theorem C3_conversion_error_witness :
    (valueGet failingHelpers (sampleParam sampleIntSchema none none) (JSValue.string "x")
        (initState emptyApi)).1 = JSValue.undefined ∧
    (valueGet failingHelpers (sampleParam sampleIntSchema none none) (JSValue.string "x")
        (initState emptyApi)).2.error = some plainConvertError ∧
    (validGet failingHelpers (sampleParam sampleIntSchema none none) (JSValue.string "x")
        (initState emptyApi)).1 = false ∧
    (validGet failingHelpers (sampleParam sampleIntSchema none none) (JSValue.string "x")
        (initState emptyApi)).2.validateCount = 0 ∧
    (errorGet failingHelpers (sampleParam sampleIntSchema none none) (JSValue.string "x")
        (initState emptyApi)).1 = some plainConvertError :=
  C3_conversion_error failingHelpers (sampleParam sampleIntSchema none none)
    (JSValue.string "x") emptyApi plainConvertError (by decide) rfl rfl

/-- Claim C4, amended: for a required descriptor whose coerced value (after
coercion and default fallback) is `undefined` and for which no coercion error
was captured, `valid` is false and the exposed error carries code
MISSING_REQUIRED_PARAMETER — a distinct kind from schema-validation failure.
(Without the no-captured-error proviso the claim fails: a captured coercion
error preempts the requiredness check, see the counterexample.) -/
theorem C4_missing_required (h : Helpers) (p : ParameterObject) (raw : JSValue) (api : ApiDef)
    (hreq : p.required = some true)
    (hval : (valueGet h p raw (initState api)).1 = JSValue.undefined)
    (herr : (valueGet h p raw (initState api)).2.error = none) :
    (validGet h p raw (initState api)).1 = false ∧
    (errorGet h p raw (initState api)).1 =
      some { missingRequiredError with failedValidation := some true,
                                       schemaPath := some p.ptr } ∧
    (some "MISSING_REQUIRED_PARAMETER" : Option String) ≠ some "SCHEMA_VALIDATION_FAILED" := by
  have hat : (validAttempt h p (valueGet h p raw (initState api)).1
      (valueGet h p raw (initState api)).2).2 = some missingRequiredError := by
    unfold validAttempt
    rw [if_pos ⟨hreq, hval⟩]
  have hvg := validGet_of_throw h p raw (initState api) rfl missingRequiredError herr hat
  refine ⟨by rw [hvg], ?_, by decide⟩
  rw [errorGet_fst h p raw (initState api), hvg]
  simp

/-- Witness for C4 at a concrete instance: integer schema, required, raw
value absent, coercion reporting no conversion. -/
theorem C4_missing_required_witness :
    (validGet (sampleHelpers intConvertStub) (sampleParam sampleIntSchema (some true) none)
        JSValue.undefined (initState emptyApi)).1 = false ∧
    (errorGet (sampleHelpers intConvertStub) (sampleParam sampleIntSchema (some true) none)
        JSValue.undefined (initState emptyApi)).1 =
      some { missingRequiredError with failedValidation := some true,
                                       schemaPath := some "parameters-0" } ∧
    (some "MISSING_REQUIRED_PARAMETER" : Option String) ≠ some "SCHEMA_VALIDATION_FAILED" :=
  C4_missing_required (sampleHelpers intConvertStub)
    (sampleParam sampleIntSchema (some true) none) JSValue.undefined emptyApi rfl rfl rfl

/-- Counterexample to claim C4 as stated: a required parameter whose coercion
throws also has an undefined coerced value, but the exposed error is the
captured coercion error, whose code is not MISSING_REQUIRED_PARAMETER. -/
theorem C4_counterexample :
    (sampleParam sampleIntSchema (some true) none).required = some true ∧
    (valueGet failingHelpers (sampleParam sampleIntSchema (some true) none) (JSValue.string "x")
        (initState emptyApi)).1 = JSValue.undefined ∧
    (validGet failingHelpers (sampleParam sampleIntSchema (some true) none) (JSValue.string "x")
        (initState emptyApi)).1 = false ∧
    ((errorGet failingHelpers (sampleParam sampleIntSchema (some true) none) (JSValue.string "x")
        (initState emptyApi)).1.map JSError.code) = some none := by
  exact ⟨rfl, rfl, rfl, rfl⟩

/-- Claim C5, amended: provided no coercion error was captured, schema
validation is skipped and `valid` is true when (a) the required flag is false
or absent and the coerced value is `undefined`, or (b) the schema has
`allowEmptyValue = true` and the coerced value is the empty string, or (c)
the descriptor is file-typed and not simultaneously required with an
undefined coerced value (in that last combination the requiredness check
precedes the file skip and the parameter is invalid, see the
counterexample); in each case the external validator is never invoked. -/
theorem C5_skip_validation (h : Helpers) (p : ParameterObject) (raw : JSValue) (api : ApiDef)
    (herr : (valueGet h p raw (initState api)).2.error = none)
    (hcase :
      ((p.required = none ∨ p.required = some false) ∧
        (valueGet h p raw (initState api)).1 = JSValue.undefined) ∨
      (p.schema.allowEmptyValue = some true ∧
        (valueGet h p raw (initState api)).1 = JSValue.string "") ∨
      (p.type = some "file" ∧
        ¬ (p.required = some true ∧
            (valueGet h p raw (initState api)).1 = JSValue.undefined))) :
    (validGet h p raw (initState api)).1 = true ∧
    (validGet h p raw (initState api)).2.validateCount = 0 := by
  have hreqpass : ¬ (p.required = some true ∧
      (valueGet h p raw (initState api)).1 = JSValue.undefined) := by
    rcases hcase with ⟨hr, _⟩ | ⟨_, hv⟩ | ⟨_, hnot⟩
    · rintro ⟨hrt, _⟩
      rcases hr with h1 | h1 <;> rw [h1] at hrt <;> cases hrt
    · rintro ⟨_, hu⟩
      rw [hv] at hu
      cases hu
    · exact hnot
  have hskip : skipCheck h p (valueGet h p raw (initState api)).1 = .ok true := by
    unfold skipCheck
    rcases hcase with ⟨hr, hv⟩ | ⟨ha, hv⟩ | ⟨hf, _⟩
    · rw [if_pos ⟨hr, hv⟩]
    · have h2 : ¬ ((p.required = none ∨ p.required = some false) ∧
          (valueGet h p raw (initState api)).1 = JSValue.undefined) := by
        rintro ⟨_, hu⟩
        rw [hv] at hu
        cases hu
      rw [if_neg h2, if_pos ⟨ha, hv⟩]
    · by_cases hu : (valueGet h p raw (initState api)).1 = JSValue.undefined
      · have hr : p.required = none ∨ p.required = some false := by
          rcases hro : p.required with _ | b
          · exact Or.inl rfl
          · cases b
            · exact Or.inr rfl
            · exact absurd ⟨hro, hu⟩ hreqpass
        rw [if_pos ⟨hr, hu⟩]
      · rw [if_neg (fun hc => hu hc.2)]
        by_cases he : p.schema.allowEmptyValue = some true ∧
            (valueGet h p raw (initState api)).1 = JSValue.string ""
        · rw [if_pos he]
        · rw [if_neg he, if_pos hf]
  have hat : validAttempt h p (valueGet h p raw (initState api)).1
      (valueGet h p raw (initState api)).2 =
      ((valueGet h p raw (initState api)).2, none) := by
    unfold validAttempt
    rw [if_neg hreqpass, hskip]
  have hat2 : (validAttempt h p (valueGet h p raw (initState api)).1
      (valueGet h p raw (initState api)).2).2 = none := by rw [hat]
  have hvg := validGet_of_ok h p raw (initState api) rfl herr hat2
  refine ⟨by rw [hvg], ?_⟩
  rw [hvg]
  simp only [hat]
  exact (valueGet_pres h p raw (initState api)).2.2

/-- Witness for C5 at a concrete instance: optional integer parameter with an
absent raw value. -/
theorem C5_skip_validation_witness :
    (validGet (sampleHelpers intConvertStub) (sampleParam sampleIntSchema (some false) none)
        JSValue.undefined (initState emptyApi)).1 = true ∧
    (validGet (sampleHelpers intConvertStub) (sampleParam sampleIntSchema (some false) none)
        JSValue.undefined (initState emptyApi)).2.validateCount = 0 :=
  C5_skip_validation (sampleHelpers intConvertStub)
    (sampleParam sampleIntSchema (some false) none) JSValue.undefined emptyApi rfl
    (Or.inl ⟨Or.inr rfl, rfl⟩)

/-- Counterexample to claim C5 as stated: a file-typed descriptor that is
required with an absent raw value is not valid — the requiredness check fires
before the file-type skip — refuting "file-typed implies valid". -/
theorem C5_counterexample :
    (sampleParam sampleFileSchema (some true) (some "file")).type = some "file" ∧
    (valueGet (sampleHelpers intConvertStub) (sampleParam sampleFileSchema (some true) (some "file"))
        JSValue.undefined (initState emptyApi)).2.error = none ∧
    ¬ ((validGet (sampleHelpers intConvertStub) (sampleParam sampleFileSchema (some true) (some "file"))
        JSValue.undefined (initState emptyApi)).1 = true) := by
  exact ⟨rfl, rfl, by decide⟩

/-- Claim C6, amended: `oneOf` coercion iterates the alternatives in declared
order; an alternative typed null is skipped; the first alternative whose
coercion result is defined and differs from the raw value is accepted and the
loop stops there, so no later alternative overrides it; when an attempt does
not qualify, its result is still assigned before moving on, so that with no
qualifying alternative the loop leaves the result of the last attempted
alternative (possibly `undefined`) — and the cached value equals the loop's
result whenever that result is defined; when it is `undefined`, the default
fallback may still replace it (see the counterexample to the unamended
wording). -/
theorem C6_oneOf_resolution (h : Helpers) (cf : Option String) (raw : JSValue) :
    (∀ s : PVState, oneOfLoop h cf raw [] s = s) ∧
    (∀ (a : Schema) (rest : List Schema) (s : PVState), a.type = some "null" →
      oneOfLoop h cf raw (a :: rest) s = oneOfLoop h cf raw rest s) ∧
    (∀ (a : Schema) (rest : List Schema) (s : PVState) (v : JSValue),
      a.type ≠ some "null" → h.convertValue a cf raw = .ok v →
      v ≠ JSValue.undefined → v ≠ raw →
      oneOfLoop h cf raw (a :: rest) s =
        { s with convertCount := s.convertCount + 1, processedValue := v }) ∧
    (∀ (a : Schema) (rest : List Schema) (s : PVState) (v : JSValue),
      a.type ≠ some "null" → h.convertValue a cf raw = .ok v →
      (v = JSValue.undefined ∨ v = raw) →
      oneOfLoop h cf raw (a :: rest) s =
        oneOfLoop h cf raw rest
          { s with convertCount := s.convertCount + 1, processedValue := v }) ∧
    (∀ (p : ParameterObject) (api : ApiDef) (alts : List Schema),
      p.schema.oneOf = some alts → p.schema.type ≠ some "file" →
      p.collectionFormat = cf →
      (oneOfLoop h cf raw alts (initState api)).processedValue ≠ JSValue.undefined →
      (valueGet h p raw (initState api)).1 =
        (oneOfLoop h cf raw alts (initState api)).processedValue) := by
  refine ⟨fun s => rfl, ?_, ?_, ?_, ?_⟩
  · intro a rest s hnull
    unfold oneOfLoop
    rw [if_pos hnull]
    cases rest <;> rfl
  · intro a rest s v hnull hok hdef hraw
    unfold oneOfLoop
    rw [if_neg hnull, hok]
    simp only
    rw [if_pos ⟨hdef, hraw⟩]
  · intro a rest s v hnull hok hor
    unfold oneOfLoop
    rw [if_neg hnull, hok]
    simp only
    rw [if_neg (fun hc => by rcases hor with h1 | h1 <;> [exact hc.1 h1; exact hc.2 h1])]
    cases rest <;> rfl
  · intro p api alts honeOf hfile hcf hdef
    unfold valueGet computeValue convertPhase
    rw [honeOf, hcf]
    have hpr : (initState api).processed = false := rfl
    rw [if_neg (by rw [hpr]; exact Bool.false_ne_true)]
    simp only [if_neg hfile]
    rw [applyDefault_defined p.schema _ hdef]

/-- The `oneOf` schema with a single integer alternative and a top-level
default of 7. -/
def cexC6Schema : Schema :=
  Schema.mk none none (JSValue.number 7) none (some [sampleIntSchema]) none

/-- A conversion stub that always reports no conversion. -/
def undefConvertStub : Schema → Option String → JSValue → Except JSError JSValue :=
  fun _ _ _ => Except.ok JSValue.undefined

/-- Counterexample to claim C6 as stated: with one `oneOf` alternative whose
coercion reports `undefined` (the result of the last attempted alternative)
and a top-level schema default of 7, the cached value is 7, not the last
attempt's `undefined`. -/
theorem C6_counterexample :
    (sampleHelpers undefConvertStub).convertValue sampleIntSchema none (JSValue.string "q") =
      Except.ok JSValue.undefined ∧
    (valueGet (sampleHelpers undefConvertStub) (sampleParam cexC6Schema none none)
        (JSValue.string "q") (initState emptyApi)).1 = JSValue.number 7 := by
  exact ⟨rfl, rfl⟩

/-- When the value reaching the top-level-default step is still `undefined`,
the result is the schema's `default` when present, `undefined` otherwise. -/
theorem topDefault_undef (schema : Schema) (t : PVState)
    (h : t.processedValue = JSValue.undefined) :
    (topDefault schema t).processedValue =
      (if schema.default ≠ JSValue.undefined then schema.default else JSValue.undefined) := by
  unfold topDefault
  by_cases hd : schema.default = JSValue.undefined
  · simp [hd, h]
  · simp [hd, h]

/-- The top-level default does not override a defined value. -/
theorem topDefault_def (schema : Schema) (t : PVState)
    (h : t.processedValue ≠ JSValue.undefined) : topDefault schema t = t := by
  unfold topDefault
  rw [if_neg (fun hc => h hc.1)]

/-- Claim C7: when coercion yields `undefined` with no captured error, the
default fallback proceeds in order: for an array schema with tuple-style
`items` the value becomes the list of elementwise defaults, unless every
element of that candidate is undefined, in which case the candidate is
discarded (a partially-defaulted tuple is retained); for an array schema with
a single `items` schema carrying a default, the value becomes a one-element
array of that default; and whenever the value is still undefined after the
`items` step, the schema's own top-level `default` applies when present. -/
theorem C7_default_fallback (schema : Schema) (s : PVState)
    (hundef : s.processedValue = JSValue.undefined) (herr : s.error = none) :
    (schema.type = some "array" → ∀ l, schema.items = some (Sum.inr l) →
      (¬ ((l.map Schema.default).all (fun d => d = JSValue.undefined) = true) →
        (applyDefault schema s).processedValue = JSValue.array (l.map Schema.default)) ∧
      ((l.map Schema.default).all (fun d => d = JSValue.undefined) = true →
        (applyDefault schema s).processedValue =
          (if schema.default ≠ JSValue.undefined then schema.default
           else JSValue.undefined))) ∧
    (schema.type = some "array" → ∀ item, schema.items = some (Sum.inl item) →
      (item.default ≠ JSValue.undefined →
        (applyDefault schema s).processedValue = JSValue.array [item.default]) ∧
      (item.default = JSValue.undefined →
        (applyDefault schema s).processedValue =
          (if schema.default ≠ JSValue.undefined then schema.default
           else JSValue.undefined))) ∧
    ((schema.type ≠ some "array" ∨ schema.items = none) →
      (applyDefault schema s).processedValue =
        (if schema.default ≠ JSValue.undefined then schema.default
         else JSValue.undefined)) := by
  have happ : applyDefault schema s = topDefault schema (itemsDefault schema s) := by
    unfold applyDefault
    rw [if_pos ⟨hundef, herr⟩]
  refine ⟨?_, ?_, ?_⟩
  · intro htype l hitems
    have hid : itemsDefault schema s = tupleDefault l s := by
      unfold itemsDefault
      rw [if_pos htype, hitems]
    constructor
    · intro hnall
      have ht : tupleDefault l s =
          { s with processedValue := JSValue.array (l.map Schema.default) } := by
        simp only [tupleDefault]
        rw [if_neg hnall]
      rw [happ, hid, ht, topDefault_def]
      intro hc
      cases hc
    · intro hall
      have ht : tupleDefault l s = s := by
        simp only [tupleDefault]
        rw [if_pos hall]
      rw [happ, hid, ht]
      exact topDefault_undef schema s hundef
  · intro htype item hitems
    have hid : itemsDefault schema s =
        (if item.default ≠ JSValue.undefined then
          { s with processedValue := JSValue.array [item.default] }
         else s) := by
      unfold itemsDefault
      rw [if_pos htype, hitems]
    constructor
    · intro hd
      rw [happ, hid, if_pos hd, topDefault_def]
      intro hc
      cases hc
    · intro hd
      rw [happ, hid, if_neg (fun hc => hc hd)]
      exact topDefault_undef schema s hundef
  · intro hor
    have hid : itemsDefault schema s = s := by
      unfold itemsDefault
      rcases hor with h1 | h1
      · rw [if_neg h1]
      · split
        · rw [h1]
        · rfl
    rw [happ, hid]
    exact topDefault_undef schema s hundef

/-- An array schema with tuple-style items, the first carrying default 1 and
the second no default. -/
def tupleSchema : Schema :=
  Schema.mk (some "array") none JSValue.undefined
    (some (Sum.inr [Schema.mk none none (JSValue.number 1) none none none,
                    Schema.mk none none JSValue.undefined none none none]))
    none none

/-- Witness for C7 at a concrete instance: the partially-defaulted tuple
candidate `[1, undefined]` is retained. -/
theorem C7_default_fallback_witness :
    (applyDefault tupleSchema (initState emptyApi)).processedValue =
      JSValue.array [JSValue.number 1, JSValue.undefined] :=
  ((C7_default_fallback tupleSchema (initState emptyApi) rfl rfl).1 rfl
    [Schema.mk none none (JSValue.number 1) none none none,
     Schema.mk none none JSValue.undefined none none none] rfl).1 (by decide)

/-- Claim C8, amended: errors raised inside the `valid` getter's own
validation step — missing required parameter and schema-validation failure —
are stamped with `failedValidation = true` and the parameter's pointer as
`schemaPath`, and a schema-validation failure carries code
SCHEMA_VALIDATION_FAILED together with the validator's full sub-error list
(non-empty by construction); a captured coercion error, however, is exposed
exactly as the coercion function threw it, with no stamping (see the
counterexample to the unamended wording, which asserted the stamp on every
failure path). -/
theorem C8_error_decoration (h : Helpers) (p : ParameterObject) (raw : JSValue)
    (api : ApiDef) :
    (∀ e : JSError, p.schema.type ≠ some "file" → p.schema.oneOf = none →
      h.convertValue p.schema p.collectionFormat raw = .error e →
      (errorGet h p raw (initState api)).1 = some e) ∧
    (p.required = some true →
      (valueGet h p raw (initState api)).1 = JSValue.undefined →
      (valueGet h p raw (initState api)).2.error = none →
      (errorGet h p raw (initState api)).1 =
        some { missingRequiredError with failedValidation := some true,
                                         schemaPath := some p.ptr }) ∧
    ((valueGet h p raw (initState api)).2.error = none →
      ¬ (p.required = some true ∧
          (valueGet h p raw (initState api)).1 = JSValue.undefined) →
      skipCheck h p (valueGet h p raw (initState api)).1 = .ok false →
      (h.validateAgainstSchema (escapePaths api) (valueGet h p raw (initState api)).1
          (h.constructSchemaPathFromPtr p.ptr p.definitionSchema)).errors ≠ [] →
      (errorGet h p raw (initState api)).1 =
        some { message := "Value failed JSON Schema validation"
               code := some "SCHEMA_VALIDATION_FAILED"
               errors := some (h.validateAgainstSchema (escapePaths api)
                   (valueGet h p raw (initState api)).1
                   (h.constructSchemaPathFromPtr p.ptr p.definitionSchema)).errors
               failedValidation := some true
               schemaPath := some p.ptr }) := by
  refine ⟨?_, ?_, ?_⟩
  · intro e hfile honeOf hcv
    have hv := valueGet_convert_error h p raw api e hfile honeOf hcv
    have herr : (valueGet h p raw (initState api)).2.error = some e := by rw [hv]
    have hvg := validGet_of_error h p raw (initState api) rfl e herr
    rw [errorGet_fst h p raw (initState api), hvg]
    simp [herr]
  · intro hreq hval herr
    have hat : (validAttempt h p (valueGet h p raw (initState api)).1
        (valueGet h p raw (initState api)).2).2 = some missingRequiredError := by
      unfold validAttempt
      rw [if_pos ⟨hreq, hval⟩]
    have hvg := validGet_of_throw h p raw (initState api) rfl missingRequiredError herr hat
    rw [errorGet_fst h p raw (initState api), hvg]
    simp
  · intro herr hnot hskip hne
    have hapi : (valueGet h p raw (initState api)).2.api = api :=
      (valueGet_pres h p raw (initState api)).2.1
    have hat : (validAttempt h p (valueGet h p raw (initState api)).1
        (valueGet h p raw (initState api)).2).2 =
        some (schemaValidationError
          ((h.validateAgainstSchema (escapePaths api)
              (valueGet h p raw (initState api)).1
              (h.constructSchemaPathFromPtr p.ptr p.definitionSchema)).errors)) := by
      unfold validAttempt
      rw [if_neg hnot, hskip]
      dsimp only
      rw [hapi, if_pos hne]
    have hvg := validGet_of_throw h p raw (initState api) rfl _ herr hat
    rw [errorGet_fst h p raw (initState api), hvg]
    simp [schemaValidationError]

/-- A validator that rejects everything with one sub-error. -/
def failValidator : ApiDef → JSValue → List String → VResult :=
  fun _ _ _ => { errors := ["expected an integer"], warnings := [] }

/-- Helpers whose conversion succeeds and whose validator rejects. -/
def strictHelpers : Helpers :=
  { convertValue := intConvertStub
    isFile := fun _ => false
    constructSchemaPathFromPtr := fun ptr _ => [ptr]
    validateAgainstSchema := failValidator }

/-- Witness for C8 at a concrete instance: a schema-validation failure is
exposed with the code, the stamp, the pointer and the full sub-error list. -/
theorem C8_error_decoration_witness :
    (errorGet strictHelpers (sampleParam sampleIntSchema none none) (JSValue.string "5")
        (initState emptyApi)).1 =
      some { message := "Value failed JSON Schema validation"
             code := some "SCHEMA_VALIDATION_FAILED"
             errors := some ["expected an integer"]
             failedValidation := some true
             schemaPath := some "parameters-0" } :=
  (C8_error_decoration strictHelpers (sampleParam sampleIntSchema none none)
      (JSValue.string "5") emptyApi).2.2 rfl (by decide) rfl (by decide)

/-- Counterexample to claim C8 as stated: on the captured-coercion-error
failure path the exposed error carries neither the `failedValidation` stamp
nor the schema pointer — it is the unmodified thrown error. -/
theorem C8_counterexample :
    (errorGet failingHelpers (sampleParam sampleIntSchema none none) (JSValue.string "x")
        (initState emptyApi)).1 = some plainConvertError ∧
    plainConvertError.failedValidation ≠ some true ∧
    plainConvertError.schemaPath ≠ some (sampleParam sampleIntSchema none none).ptr := by
  exact ⟨rfl, by decide, by decide⟩

/-- The escaper is the identity on quote-free character lists. -/
theorem escQuoteAux_id : ∀ (b : Bool) (cs : List Char), quoteChar ∉ cs →
    escQuoteAux b cs = cs
  | _, [], _ => rfl
  | b, c :: cs, hq => by
      unfold escQuoteAux
      have hc : ¬ (c = quoteChar ∧ b = false) := by
        rintro ⟨hcq, _⟩
        exact hq (hcq ▸ List.mem_cons_self c cs)
      rw [if_neg hc, escQuoteAux_id _ cs (fun hm => hq (List.mem_cons_of_mem c hm))]

/-- The escaper is the identity on quote-free keys. -/
theorem escapeSingleQuotes_id (s : String) (hq : quoteChar ∉ s.data) :
    escapeSingleQuotes s = s := by
  unfold escapeSingleQuotes
  rw [escQuoteAux_id false s.data hq]

/-- A key appearing in the association list is found by `lookupKey`. -/
theorem lookupKey_mem : ∀ (ps : List (String × JSValue)) (k : String),
    k ∈ ps.map Prod.fst → ∃ v, lookupKey ps k = some v
  | [], k, hm => by cases hm
  | (k0, v0) :: rest, k, hm => by
      unfold lookupKey
      by_cases hk : k0 = k
      · exact ⟨v0, by rw [if_pos hk]⟩
      · rw [if_neg hk]
        refine lookupKey_mem rest k ?_
        rcases List.mem_map.mp hm with ⟨kv, hkv, hfst⟩
        rcases List.mem_cons.mp hkv with h1 | h1
        · exact absurd (by rw [h1] at hfst; exact hfst) hk
        · exact List.mem_map.mpr ⟨kv, h1, hfst⟩

/-- Writing back the value a key already holds leaves the object unchanged. -/
theorem setKey_self : ∀ (ps : List (String × JSValue)) (k : String) (v : JSValue),
    lookupKey ps k = some v → setKey ps k v = ps
  | [], k, v, hl => by cases hl
  | (k0, v0) :: rest, k, v, hl => by
      unfold setKey
      unfold lookupKey at hl
      by_cases hk : k0 = k
      · rw [if_pos hk] at hl ⊢
        cases hl
        rfl
      · rw [if_neg hk] at hl ⊢
        rw [setKey_self rest k v hl]

/-- `escapePaths` leaves a document unchanged when no path key contains a
single quote. -/
theorem escapePaths_id (doc : ApiDef) (hq : ∀ kv ∈ doc.paths, quoteChar ∉ kv.1.data) :
    escapePaths doc = doc := by
  unfold escapePaths
  have hfold : ∀ ks : List String, (∀ k ∈ ks, k ∈ doc.paths.map Prod.fst) →
      ks.foldl (fun ps k =>
        setKey ps (escapeSingleQuotes k) ((lookupKey ps k).getD JSValue.undefined))
        doc.paths = doc.paths := by
    intro ks
    induction ks with
    | nil => intro _; rfl
    | cons k ks ih =>
        intro hmem
        have hkmem : k ∈ doc.paths.map Prod.fst := hmem k (List.mem_cons_self k ks)
        have hkq : quoteChar ∉ k.data := by
          rcases List.mem_map.mp hkmem with ⟨kv, hkv, hfst⟩
          exact hfst ▸ hq kv hkv
        rcases lookupKey_mem doc.paths k hkmem with ⟨v, hv⟩
        have hstep : setKey doc.paths (escapeSingleQuotes k)
            ((lookupKey doc.paths k).getD JSValue.undefined) = doc.paths := by
          rw [escapeSingleQuotes_id k hkq, hv]
          exact setKey_self doc.paths k v hv
        rw [List.foldl_cons, hstep]
        exact ih (fun k2 hk2 => hmem k2 (List.mem_cons_of_mem k hk2))
  rw [hfold (doc.paths.map Prod.fst) (fun k hk => hk)]

/-- The document a `try` block leaves behind is either untouched or escaped
in place. -/
theorem validAttempt_api (h : Helpers) (p : ParameterObject) (value : JSValue) (s : PVState) :
    (validAttempt h p value s).1.api = s.api ∨
    (validAttempt h p value s).1.api = escapePaths s.api := by
  unfold validAttempt
  split
  · left; rfl
  · split
    · left; rfl
    · left; rfl
    · dsimp only
      split
      · right; rfl
      · right; rfl

/-- The document a first `valid` read leaves behind is either the one the
`value` read left or its in-place escape. -/
theorem validGet_api (h : Helpers) (p : ParameterObject) (raw : JSValue) (s : PVState)
    (hs : s.isValid = none) :
    (validGet h p raw s).2.api = (valueGet h p raw s).2.api ∨
    (validGet h p raw s).2.api = escapePaths (valueGet h p raw s).2.api := by
  unfold validGet
  rw [hs]
  dsimp only
  cases herr : (valueGet h p raw s).2.error with
  | some e => left; simp [herr]
  | none =>
      have hor := validAttempt_api h p (valueGet h p raw s).1 (valueGet h p raw s).2
      cases hat : (validAttempt h p (valueGet h p raw s).1 (valueGet h p raw s).2).2 with
      | none =>
          simp only [herr, hat]
          exact hor
      | some e =>
          simp only [herr, hat]
          exact hor

/-- Claim C9, amended: the descriptor is never written (it sits outside the
mutable state of the embedding altogether — every getter only reads `p`), and
the root document's `paths` collection is unchanged by any sequence of facet
reads provided none of its keys contains a single quote; when schema
validation runs against a document with a quote-bearing path key, however,
the in-place escaping adds the escaped key (see the counterexample). -/
theorem C9_frame (h : Helpers) (p : ParameterObject) (raw : JSValue) (api : ApiDef)
    (hq : ∀ kv ∈ api.paths, quoteChar ∉ kv.1.data) :
    (valueGet h p raw (initState api)).2.api = api ∧
    (validGet h p raw (initState api)).2.api = api ∧
    (errorGet h p raw (initState api)).2.api = api := by
  have hv : (valueGet h p raw (initState api)).2.api = api :=
    (valueGet_pres h p raw (initState api)).2.1
  have hvalid : (validGet h p raw (initState api)).2.api = api := by
    rcases validGet_api h p raw (initState api) rfl with h1 | h1
    · rw [h1, hv]
    · rw [h1, hv, escapePaths_id api hq]
  exact ⟨hv, hvalid, by rw [errorGet_snd h p raw (initState api)]; exact hvalid⟩

/-- A root document with one quote-free path key. -/
def petsApi : ApiDef := { paths := [("/pets", JSValue.null)] }

/-- Witness for C9 at a concrete instance that does run schema validation:
the quote-free document is unchanged by all three reads. -/
theorem C9_frame_witness :
    (valueGet (sampleHelpers intConvertStub) (sampleParam sampleIntSchema none none)
        (JSValue.string "5") (initState petsApi)).2.api = petsApi ∧
    (validGet (sampleHelpers intConvertStub) (sampleParam sampleIntSchema none none)
        (JSValue.string "5") (initState petsApi)).2.api = petsApi ∧
    (errorGet (sampleHelpers intConvertStub) (sampleParam sampleIntSchema none none)
        (JSValue.string "5") (initState petsApi)).2.api = petsApi :=
  C9_frame (sampleHelpers intConvertStub) (sampleParam sampleIntSchema none none)
    (JSValue.string "5") petsApi (by decide)

/-- A path key containing a single quote. -/
def quotedKey : String := String.mk [Char.ofNat 97, quoteChar, Char.ofNat 98]

/-- A root document with one quote-bearing path key. -/
def quotedApi : ApiDef := { paths := [(quotedKey, JSValue.null)] }

/-- Counterexample to claim C9 as stated: reading `valid` on a document whose
`paths` collection has a quote-bearing key mutates the collection in place —
the escaped variant of the key is added — so the root document is not left
unchanged by a facet read. -/
theorem C9_counterexample :
    (validGet (sampleHelpers intConvertStub) (sampleParam sampleIntSchema none none)
        (JSValue.string "5") (initState quotedApi)).2.api ≠ quotedApi ∧
    (validGet (sampleHelpers intConvertStub) (sampleParam sampleIntSchema none none)
        (JSValue.string "5") (initState quotedApi)).2.api.paths.length = 2 := by
  exact ⟨by decide, rfl⟩

/-- Claim C10: for a string-typed, non-`oneOf` schema without a matching date
format, when the coercion yields `null` (defined but not a string), reading
`valid` does not throw (the model's getter is total exactly because the
source catches the `TypeError` from probing `value.readUInt8`): `valid` is
false, schema validation never runs, and the exposed error is the caught
`TypeError`, stamped `failedValidation`/`schemaPath` but carrying no code —
in particular neither MISSING_REQUIRED_PARAMETER nor
SCHEMA_VALIDATION_FAILED. -/
theorem C10_null_probe (h : Helpers) (p : ParameterObject) (raw : JSValue) (api : ApiDef)
    (hstring : p.schema.type = some "string")
    (hfmt : p.schema.format ≠ some "date" ∧ p.schema.format ≠ some "date-time")
    (hty : p.type ≠ some "file")
    (honeOf : p.schema.oneOf = none)
    (hcv : h.convertValue p.schema p.collectionFormat raw = .ok JSValue.null) :
    (validGet h p raw (initState api)).1 = false ∧
    (validGet h p raw (initState api)).2.validateCount = 0 ∧
    (errorGet h p raw (initState api)).1 =
      some { nullReadError with failedValidation := some true,
                                schemaPath := some p.ptr } ∧
    nullReadError.code = none := by
  have hfile : p.schema.type ≠ some "file" := by
    rw [hstring]
    decide
  have hv := valueGet_convert_ok h p raw api JSValue.null hfile honeOf hcv
  rw [applyDefault_defined p.schema _ (fun hc => JSValue.noConfusion hc)] at hv
  have hval : (valueGet h p raw (initState api)).1 = JSValue.null := by rw [hv]
  have herr : (valueGet h p raw (initState api)).2.error = none := by rw [hv]
  have hskip : skipCheck h p JSValue.null = .error nullReadError := by
    unfold skipCheck
    rw [if_neg (fun hc => absurd hc.2 (by decide)),
      if_neg (fun hc => absurd hc.2 (by decide)),
      if_neg hty, if_pos hstring,
      if_neg (fun hc => absurd hc.2 (by decide))]
    rfl
  have hat1 : validAttempt h p (valueGet h p raw (initState api)).1
      (valueGet h p raw (initState api)).2 =
      ((valueGet h p raw (initState api)).2, some nullReadError) := by
    rw [hval]
    unfold validAttempt
    rw [if_neg (fun hc => absurd hc.2 (by decide)), hskip]
  have hat : (validAttempt h p (valueGet h p raw (initState api)).1
      (valueGet h p raw (initState api)).2).2 = some nullReadError := by rw [hat1]
  have hvg := validGet_of_throw h p raw (initState api) rfl nullReadError herr hat
  refine ⟨by rw [hvg], ?_, ?_, rfl⟩
  · rw [hvg]
    simp only [hat1]
    rw [hv]
  · rw [errorGet_fst h p raw (initState api), hvg]
    simp

/-- A conversion stub that always produces `null`. -/
def nullConvertStub : Schema → Option String → JSValue → Except JSError JSValue :=
  fun _ _ _ => Except.ok JSValue.null

/-- Witness for C10 at a concrete instance: a plain string schema whose
coercion yields `null`. -/
theorem C10_null_probe_witness :
    (validGet (sampleHelpers nullConvertStub) (sampleParam sampleStringSchema none none)
        (JSValue.string "x") (initState emptyApi)).1 = false ∧
    (validGet (sampleHelpers nullConvertStub) (sampleParam sampleStringSchema none none)
        (JSValue.string "x") (initState emptyApi)).2.validateCount = 0 ∧
    (errorGet (sampleHelpers nullConvertStub) (sampleParam sampleStringSchema none none)
        (JSValue.string "x") (initState emptyApi)).1 =
      some { nullReadError with failedValidation := some true,
                                schemaPath := some "parameters-0" } ∧
    nullReadError.code = none :=
  C10_null_probe (sampleHelpers nullConvertStub) (sampleParam sampleStringSchema none none)
    (JSValue.string "x") emptyApi rfl (by decide) (by decide) rfl rfl
